import Mathlib

/-!
Verification of the SX126x host-side command codec (`sx126x.py`).

Bytes are modelled as `Nat`, command frames as `List Nat`, Python `int`
parameters as `Int`.  Each public method of class `Sx126x` is embedded as a
constructor of `Op`; `encodeOp` builds exactly the byte frame the method
passes to `_send_command`, `sendCommand` models `_send_command` itself
(staging in the fixed 100-byte ctypes scratch buffer, then a full-duplex
SPI exchange of `len(cmd_bytes)` bytes), and `statusOf` / `dataOf` model the
`Dict` result each read-type method extracts from the echoed buffer.
-/

namespace Sx126x

/-- Python runtime errors reachable in the embedded code:
`overflowError` is `int.to_bytes` raising `OverflowError` (the spec's
`ParameterOutOfRange`), `typeError` is `bytes + int` concatenation raising
`TypeError`, and `valueError` is the ctypes buffer setter raising
`ValueError: byte string too long`. -/
inductive PyError where
  | overflowError
  | typeError
  | valueError
  deriving DecidableEq, Repr

/-- Big-endian byte list of width `w` for the natural number `n`, the layout
produced by Python's `n.to_bytes(w, 'big')` for in-range `n`. -/
def beBytes : Nat → Nat → List Nat
  | 0, _ => []
  | w + 1, n => beBytes w (n / 256) ++ [n % 256]

/-- Big-endian decoding of a byte list, `int.from_bytes(bs, 'big')`. -/
def decodeBE (bs : List Nat) : Nat :=
  bs.foldl (fun a b => a * 256 + b) 0

/-- Python's `x.to_bytes(w, 'big')`: raises `OverflowError` when `x` is
negative or does not fit in `w` bytes, otherwise yields the `w` big-endian
bytes of `x`. -/
def toBytes (x : Int) (w : Nat) : Except PyError (List Nat) :=
  if 0 ≤ x ∧ x < ((2 ^ (8 * w) : Nat) : Int) then .ok (beBytes w x.toNat)
  else .error .overflowError

/-- Python's bitwise `x & m` for an arbitrary `int` x and a nonnegative mask
m, including the two's-complement behaviour on negative `x`; the result is
nonnegative, so it is returned as a `Nat`.  Every mask used in `sx126x.py`
is an all-ones value (0x01, 0x07, 0xFF). -/
def pyAnd (x : Int) (m : Nat) : Nat :=
  (Int.land x (Int.ofNat m)).toNat

/-- Python's `bytes + int` concatenation: always a `TypeError`, whatever the
values are.  `SetPaConfig` does this three times (`cmd_bytes += paDutyCycle
& 0x07` and the two lines after it). -/
def concatByteInt (_bs : List Nat) (_x : Nat) : Except PyError (List Nat) :=
  .error .typeError

/-- The public operation surface of class `Sx126x`: one constructor per
public method, carrying the method's parameters. -/
inductive Op where
  | SetSleep (sleepConfig : Int)
  | SetStandby (StdbyConfig : Int)
  | SetFs
  | SetTx (timeout : Int)
  | SetRx (timeout : Int)
  | StopTimerOnPreamble (StopOnPreambleParam : Int)
  | SetRxDutyCycle (rxPeriod : Int) (sleepPeriod : Int)
  | SetCAD
  | SetTxContinuousWave
  | SetTxInfinitePreamble
  | SetRegulatorMode (regModeParam : Int)
  | Calibrate (calibParam : Int)
  | CalibrateImage (freq1 : Int) (freq2 : Int)
  | SetPaConfig (paDutyCycle : Int) (hpMax : Int) (deviceSel : Int)
  | SetRxTxFallbackMode (fallbackMode : Int)
  | WriteRegister (write_address : Int) (write_bytes : List Nat)
  | ReadRegister (read_address : Int) (read_length : Nat)
  | WriteBuffer (offset : Int) (write_bytes : List Nat)
  | ReadBuffer (offset : Int) (read_length : Nat)
  | SetDioIrqParams (IrqMask : Int) (DIO1Mask : Int) (DIO2Mask : Int) (DIO3Mask : Int)
  | GetIrqStatus
  | ClearIrqStatus (ClearIrqParam : Int)
  | SetDIO2AsRfSwitchCtrl (enable : Int)
  | SetDIO3AsTCXOCtrl (tcxoVoltage : Int) (delay : Int)
  | SetRfFrequency (RfFreq : Int)
  | SetPacketType (PacketType : Int)
  | GetPacketType
  | SetTxParams (power : Int) (RampTime : Int)
  | SetModulationParams (m1 m2 m3 m4 m5 m6 m7 m8 : Int)
  | SetPacketParams (p1 p2 p3 p4 p5 p6 p7 p8 p9 : Int)
  | SetCadParams (cadSymbolNum : Int) (cadDetPeak : Int) (cadDetMin : Int)
      (cadExitMode : Int) (cadTimeout : Int)
  | SetBufferBaseAddress (txBaseAddress : Int) (rxBaseAddress : Int)
  | SetLoRaSymbNumTimeout (SymbNum : Int)
  | GetStatus
  | GetRxBufferStatus
  | GetPacketStatus
  | GetRssiInst
  | GetStats
  | ResetStats
  | GetDeviceErrors
  | ClearDeviceErrors

/-- The command frame each method builds and passes to `_send_command`,
byte for byte from the method bodies in `sx126x.py`; `.error` when the
frame construction itself raises in Python. -/
def encodeOp : Op → Except PyError (List Nat)
  | .SetSleep sleepConfig => .ok [0x84, pyAnd sleepConfig 0xFF]
  | .SetStandby StdbyConfig => .ok [0x80, pyAnd StdbyConfig 0x01]
  | .SetFs => .ok [0xC1]
  | .SetTx timeout => do .ok (0x83 :: (← toBytes timeout 3))
  | .SetRx timeout => do .ok (0x82 :: (← toBytes timeout 3))
  | .StopTimerOnPreamble StopOnPreambleParam => .ok [0x9F, pyAnd StopOnPreambleParam 0x01]
  | .SetRxDutyCycle rxPeriod sleepPeriod => do
      .ok (0x94 :: ((← toBytes rxPeriod 3) ++ (← toBytes sleepPeriod 3)))
  | .SetCAD => .ok [0xC5]
  | .SetTxContinuousWave => .ok [0xD1]
  | .SetTxInfinitePreamble => .ok [0xD2]
  | .SetRegulatorMode regModeParam => .ok [0x96, pyAnd regModeParam 0x01]
  | .Calibrate calibParam => .ok [0x89, pyAnd calibParam 0xFF]
  | .CalibrateImage freq1 freq2 => .ok [0x98, pyAnd freq1 0xFF, pyAnd freq2 0xFF]
  | .SetPaConfig paDutyCycle hpMax deviceSel => do
      let c ← concatByteInt [0x95] (pyAnd paDutyCycle 0x07)
      let c ← concatByteInt c (pyAnd hpMax 0x07)
      let c ← concatByteInt c (pyAnd deviceSel 0x01)
      .ok (c ++ [0x01])
  | .SetRxTxFallbackMode fallbackMode => .ok [0x93, pyAnd fallbackMode 0xFF]
  | .WriteRegister write_address write_bytes => do
      .ok (0x0D :: ((← toBytes write_address 2) ++ write_bytes))
  | .ReadRegister read_address read_length => do
      .ok (0x1D :: ((← toBytes read_address 2) ++ List.replicate (read_length + 1) 0))
  | .WriteBuffer offset write_bytes => .ok (0x0E :: pyAnd offset 0xFF :: write_bytes)
  | .ReadBuffer offset read_length =>
      .ok (0x1E :: pyAnd offset 0xFF :: List.replicate (read_length + 1) 0)
  | .SetDioIrqParams IrqMask DIO1Mask DIO2Mask DIO3Mask => do
      .ok (0x08 :: ((← toBytes IrqMask 2) ++ (← toBytes DIO1Mask 2) ++
        (← toBytes DIO2Mask 2) ++ (← toBytes DIO3Mask 2)))
  | .GetIrqStatus => .ok [0x12, 0x00, 0x00, 0x00]
  | .ClearIrqStatus ClearIrqParam => do .ok (0x02 :: (← toBytes ClearIrqParam 2))
  | .SetDIO2AsRfSwitchCtrl enable => .ok [0x9D, pyAnd enable 0x01]
  | .SetDIO3AsTCXOCtrl tcxoVoltage delay => do
      .ok (0x97 :: pyAnd tcxoVoltage 0x07 :: (← toBytes delay 3))
  | .SetRfFrequency RfFreq => do .ok (0x86 :: (← toBytes RfFreq 4))
  | .SetPacketType PacketType => .ok [0x8A, pyAnd PacketType 0x01]
  | .GetPacketType => .ok [0x11, 0x00, 0x00]
  | .SetTxParams power RampTime => .ok [0x8E, pyAnd power 0xFF, pyAnd RampTime 0x07]
  | .SetModulationParams m1 m2 m3 m4 m5 m6 m7 m8 =>
      .ok [0x8B, pyAnd m1 0xFF, pyAnd m2 0xFF, pyAnd m3 0xFF, pyAnd m4 0xFF,
        pyAnd m5 0xFF, pyAnd m6 0xFF, pyAnd m7 0xFF, pyAnd m8 0xFF]
  | .SetPacketParams p1 p2 p3 p4 p5 p6 p7 p8 p9 =>
      .ok [0x8C, pyAnd p1 0xFF, pyAnd p2 0xFF, pyAnd p3 0xFF, pyAnd p4 0xFF,
        pyAnd p5 0xFF, pyAnd p6 0xFF, pyAnd p7 0xFF, pyAnd p8 0xFF, pyAnd p9 0xFF]
  | .SetCadParams cadSymbolNum cadDetPeak cadDetMin cadExitMode cadTimeout => do
      .ok ([0x88, pyAnd cadSymbolNum 0xFF, pyAnd cadDetPeak 0xFF, pyAnd cadDetMin 0xFF,
        pyAnd cadExitMode 0xFF] ++ (← toBytes cadTimeout 3))
  | .SetBufferBaseAddress txBaseAddress rxBaseAddress =>
      .ok [0x8F, pyAnd txBaseAddress 0xFF, pyAnd rxBaseAddress 0xFF]
  | .SetLoRaSymbNumTimeout SymbNum => .ok [0xA0, pyAnd SymbNum 0xFF]
  | .GetStatus => .ok [0xC0, 0x00]
  | .GetRxBufferStatus => .ok [0x13, 0x00, 0x00, 0x00]
  | .GetPacketStatus => .ok [0x13, 0x00, 0x00, 0x00, 0x00]
  | .GetRssiInst => .ok [0x15, 0x00, 0x00]
  | .GetStats => .ok [0x10, 0x00, 0x00, 0x00, 0x00, 0x00, 0x00, 0x00]
  | .ResetStats => .ok [0x00, 0x00, 0x00, 0x00, 0x00, 0x00, 0x00]
  | .GetDeviceErrors => .ok [0x17, 0x00, 0x00, 0x00]
  | .ClearDeviceErrors => .ok [0x07, 0x00, 0x00]

/-- The SPI slave, abstracted: given the command frame being clocked out, the
byte clocked in at each buffer position. -/
abbrev Device := List Nat → Nat → Nat

/-- Models `Sx126x._send_command`: `self.buffer.value = cmd_bytes` stages the
frame in the fixed 100-byte ctypes scratch buffer created in `__init__`
(raising `ValueError: byte string too long` when the frame is longer than
100 bytes, before any SPI traffic), then `stream_spi_4` overwrites the first
`byte_count = len(cmd_bytes)` bytes of the buffer in place with the bytes
clocked in during the full-duplex transfer, and exactly `byte_count` bytes
are read back and returned. -/
def sendCommand (dev : Device) (cmd : List Nat) : Except PyError (List Nat) :=
  if cmd.length ≤ 100 then .ok ((List.range cmd.length).map (dev cmd))
  else .error .valueError

/-- One public call: build the command frame, then exchange it. -/
def runOp (dev : Device) (op : Op) : Except PyError (List Nat) := do
  sendCommand dev (← encodeOp op)

/-- Whether the method returns a `Dict` containing a `'status'` entry
decoded from the echoed buffer (the other methods return `None`). -/
def decodesStatus : Op → Bool
  | .WriteRegister _ _ | .ReadRegister _ _ | .WriteBuffer _ _ | .ReadBuffer _ _
  | .GetIrqStatus | .GetPacketType | .GetStatus | .GetRxBufferStatus
  | .GetPacketStatus | .GetRssiInst | .GetStats | .GetDeviceErrors
  | .ClearDeviceErrors => true
  | _ => false

/-- The `'status'` entry of each `Dict`-returning method: the response byte
index each method body reads (`cmd_result[1]`, except `cmd_result[3]` in
`ReadRegister` and `cmd_result[2]` in `ReadBuffer`); `none` for the
methods that return `None`. -/
def statusOf : Op → List Nat → Option Nat
  | .WriteRegister _ _, r => r[1]?
  | .ReadRegister _ _, r => r[3]?
  | .WriteBuffer _ _, r => r[1]?
  | .ReadBuffer _ _, r => r[2]?
  | .GetIrqStatus, r => r[1]?
  | .GetPacketType, r => r[1]?
  | .GetStatus, r => r[1]?
  | .GetRxBufferStatus, r => r[1]?
  | .GetPacketStatus, r => r[1]?
  | .GetRssiInst, r => r[1]?
  | .GetStats, r => r[1]?
  | .GetDeviceErrors, r => r[1]?
  | .ClearDeviceErrors, r => r[1]?
  | _, _ => none

/-- The payload entry of the `Dict`-returning methods that slice one out of
the response (`'data'`, `'IrqStatus'` or `'OpError'` in the source):
`cmd_result[4:]` in `ReadRegister`, `cmd_result[3:]` in `ReadBuffer`,
`cmd_result[2:]` in `GetIrqStatus`, `GetPacketStatus`, `GetStats` and
`GetDeviceErrors`. -/
def dataOf : Op → List Nat → Option (List Nat)
  | .ReadRegister _ _, r => some (r.drop 4)
  | .ReadBuffer _ _, r => some (r.drop 3)
  | .GetIrqStatus, r => some (r.drop 2)
  | .GetPacketStatus, r => some (r.drop 2)
  | .GetStats, r => some (r.drop 2)
  | .GetDeviceErrors, r => some (r.drop 2)
  | _, _ => none

/-- Modelled from the spec: the repository has no standalone status decoder
(`GetStatus` returns the raw status byte only), so this follows the spec's
Status/IRQ Decoder section and the bit table in the `GetStatus` doc comment:
ChipMode is bits [6:4] of the status byte, CommandStatus is bits [3:1]. -/
def decodeStatus (b : Nat) : Nat × Nat :=
  ((b >>> 4) &&& 0x07, (b >>> 1) &&& 0x07)

/-- A trivial SPI slave clocking in zero bytes, used to instantiate
`Device` in concrete runs. -/
def devZero : Device := fun _ _ => 0

theorem beBytes_length (w n : Nat) : (beBytes w n).length = w := by
  induction w generalizing n with
  | zero => rfl
  | succ w ih => simp [beBytes, ih]

theorem decodeBE_append_singleton (l : List Nat) (b : Nat) :
    decodeBE (l ++ [b]) = decodeBE l * 256 + b := by
  simp [decodeBE, List.foldl_append]

theorem decodeBE_beBytes (w n : Nat) (h : n < 2 ^ (8 * w)) :
    decodeBE (beBytes w n) = n := by
  induction w generalizing n with
  | zero =>
    have hn : n = 0 := by
      have h1 : (2 : Nat) ^ (8 * 0) = 1 := by norm_num
      omega
    subst hn
    rfl
  | succ w ih =>
    have hdiv : n / 256 < 2 ^ (8 * w) := by
      rw [Nat.div_lt_iff_lt_mul (by norm_num : 0 < 256)]
      calc n < 2 ^ (8 * (w + 1)) := h
        _ = 2 ^ (8 * w) * 256 := by rw [Nat.mul_add, Nat.pow_add]
    rw [beBytes, decodeBE_append_singleton, ih _ hdiv]
    omega

theorem ldiff_two_pow_sub_one (k n : Nat) :
    Nat.ldiff (2 ^ k - 1) n = 2 ^ k - 1 - n % 2 ^ k := by
  apply Nat.eq_of_testBit_eq
  intro i
  rw [Nat.testBit_ldiff,
    show 2 ^ k - 1 - n % 2 ^ k = 2 ^ k - (n % 2 ^ k + 1) by omega,
    Nat.testBit_two_pow_sub_succ (Nat.mod_lt _ (Nat.two_pow_pos k))]
  simp only [Nat.testBit_two_pow_sub_one, Nat.testBit_mod_two_pow]
  cases h : decide (i < k) <;> simp

theorem pyAnd_two_pow_sub_one (x : Int) (k : Nat) :
    (pyAnd x (2 ^ k - 1) : Int) = x % ((2 ^ k : Nat) : Int) := by
  cases x with
  | ofNat n =>
    show ((Int.land (Int.ofNat n) (Int.ofNat (2 ^ k - 1))).toNat : Int) = _
    rw [show Int.land (Int.ofNat n) (Int.ofNat (2 ^ k - 1)) =
        Int.ofNat (n &&& (2 ^ k - 1)) from rfl,
      Nat.and_pow_two_sub_one_eq_mod]
    rfl
  | negSucc n =>
    show ((Int.land (Int.negSucc n) (Int.ofNat (2 ^ k - 1))).toNat : Int) = _
    rw [show Int.land (Int.negSucc n) (Int.ofNat (2 ^ k - 1)) =
        Int.ofNat (Nat.ldiff (2 ^ k - 1) n) from rfl,
      ldiff_two_pow_sub_one,
      Int.negSucc_emod _ (by positivity)]
    have h1 : n % 2 ^ k < 2 ^ k := Nat.mod_lt _ (Nat.two_pow_pos k)
    have h2 : (n : Int) % ((2 ^ k : Nat) : Int) = ((n % 2 ^ k : Nat) : Int) := rfl
    rw [h2,
      show ((Int.ofNat (2 ^ k - 1 - n % 2 ^ k)).toNat : Int) =
        ((2 ^ k - 1 - n % 2 ^ k : Nat) : Int) from rfl]
    omega

theorem exceptBind_ok {α β : Type} (a : α) (f : α → Except PyError β) :
    (Except.ok a >>= f) = f a := rfl

theorem exceptBind_error {α β : Type} (e : PyError) (f : α → Except PyError β) :
    ((Except.error e : Except PyError α) >>= f) = Except.error e := rfl

theorem pyAnd_255 (x : Int) : (pyAnd x 0xFF : Int) = x % 256 := by
  have h := pyAnd_two_pow_sub_one x 8
  norm_num at h
  exact h

theorem pyAnd_7 (x : Int) : (pyAnd x 0x07 : Int) = x % 8 := by
  have h := pyAnd_two_pow_sub_one x 3
  norm_num at h
  exact h

theorem pyAnd_1 (x : Int) : (pyAnd x 0x01 : Int) = x % 2 := by
  have h := pyAnd_two_pow_sub_one x 1
  norm_num at h
  exact h

/-- C1: the opcode byte is NOT unique per operation in this code:
`GetRxBufferStatus` and `GetPacketStatus` both send frames whose first byte
is 0x13 (the datasheet assigns 0x14 to GetPacketStatus; the method body is a
copy of GetRxBufferStatus's with one extra NOP byte). -/
theorem getPacketStatus_opcode_clash :
    encodeOp Op.GetRxBufferStatus = .ok [0x13, 0x00, 0x00, 0x00] ∧
    encodeOp Op.GetPacketStatus = .ok [0x13, 0x00, 0x00, 0x00, 0x00] :=
  ⟨rfl, rfl⟩

/-- C3: `SetPaConfig` never builds a frame at all: its body concatenates a
`bytes` object with a bare `int` (`cmd_bytes += paDutyCycle & 0x07`), which
raises `TypeError` in Python before any transport exchange, for every
argument value. -/
theorem setPaConfig_raises_type_error :
    encodeOp (Op.SetPaConfig 0x04 0x00 0x01) = .error .typeError ∧
    (∀ dev : Device, runOp dev (Op.SetPaConfig 0x04 0x00 0x01) = .error .typeError) :=
  ⟨rfl, fun _ => rfl⟩

/-- C6: for every integer offset (negative or above 255 included),
`WriteBuffer` and `ReadBuffer` encode the offset byte of the frame (index 1)
as `offset mod 256`, and the frame construction never fails because of the
offset value. -/
theorem bufferOffset_wraps_mod256 :
    ∀ (offset : Int) (write_bytes : List Nat) (read_length : Nat),
      encodeOp (Op.WriteBuffer offset write_bytes) =
        .ok (0x0E :: pyAnd offset 0xFF :: write_bytes) ∧
      encodeOp (Op.ReadBuffer offset read_length) =
        .ok (0x1E :: pyAnd offset 0xFF :: List.replicate (read_length + 1) 0) ∧
      (pyAnd offset 0xFF : Int) = offset % 256 :=
  fun offset _ _ => ⟨rfl, rfl, pyAnd_255 offset⟩

/-- C8: the status decoder is a pure function taking bits [6:4] of the
status byte as ChipMode and bits [3:1] as CommandStatus, and on the worked
example 0x24 it yields ChipMode = STBY_RC (2) and CommandStatus =
DataAvailable (2). -/
theorem decodeStatus_spec :
    decodeStatus 0x24 = (2, 2) ∧
    ∀ b : Nat, decodeStatus b = ((b / 16) % 8, (b / 2) % 8) := by
  have hm : ∀ y : Nat, y &&& 7 = y % 8 := by
    intro y
    have h := Nat.and_pow_two_sub_one_eq_mod y 3
    norm_num at h
    exact h
  refine ⟨rfl, fun b => ?_⟩
  simp only [decodeStatus, Nat.shiftRight_eq_div_pow, hm]

/-- C2: for 0 ≤ t < 2^24, SetTx and SetRx encode t as exactly the 3
big-endian bytes following the opcode, and decoding them big-endian
recovers t; for t ≥ 2^24 the call fails with the `OverflowError` that
`int.to_bytes` raises (the spec's ParameterOutOfRange), before any
transport exchange, whatever the device would answer. -/
theorem setTx_setRx_timeout_spec :
    ∀ (t : Int) (dev : Device),
      (0 ≤ t → t < 2 ^ 24 →
        encodeOp (Op.SetTx t) = .ok (0x83 :: beBytes 3 t.toNat) ∧
        encodeOp (Op.SetRx t) = .ok (0x82 :: beBytes 3 t.toNat) ∧
        (beBytes 3 t.toNat).length = 3 ∧
        (decodeBE (beBytes 3 t.toNat) : Int) = t) ∧
      (2 ^ 24 ≤ t →
        runOp dev (Op.SetTx t) = .error .overflowError ∧
        runOp dev (Op.SetRx t) = .error .overflowError) := by
  intro t dev
  have e2 : ((2 ^ (8 * 3) : Nat) : Int) = 2 ^ 24 := by norm_num
  constructor
  · intro h0 h24
    have henc : toBytes t 3 = .ok (beBytes 3 t.toNat) := by
      unfold toBytes
      rw [if_pos ⟨h0, by rw [e2]; exact h24⟩]
    have htn : t.toNat < 2 ^ (8 * 3) := by
      have hc : ((t.toNat : Nat) : Int) < ((2 ^ (8 * 3) : Nat) : Int) := by
        rw [Int.toNat_of_nonneg h0, e2]
        exact h24
      exact_mod_cast hc
    refine ⟨?_, ?_, beBytes_length 3 t.toNat, ?_⟩
    · rw [show encodeOp (Op.SetTx t) =
          toBytes t 3 >>= fun bs => Except.ok (0x83 :: bs) from rfl,
        henc, exceptBind_ok]
    · rw [show encodeOp (Op.SetRx t) =
          toBytes t 3 >>= fun bs => Except.ok (0x82 :: bs) from rfl,
        henc, exceptBind_ok]
    · rw [decodeBE_beBytes 3 t.toNat htn, Int.toNat_of_nonneg h0]
  · intro h24
    have henc : toBytes t 3 = .error .overflowError := by
      unfold toBytes
      rw [if_neg]
      intro hc
      rw [e2] at hc
      exact absurd hc.2 (not_lt.mpr h24)
    constructor
    · rw [show runOp dev (Op.SetTx t) =
          (toBytes t 3 >>= fun bs => Except.ok (0x83 :: bs)) >>= sendCommand dev from rfl,
        henc, exceptBind_error, exceptBind_error]
    · rw [show runOp dev (Op.SetRx t) =
          (toBytes t 3 >>= fun bs => Except.ok (0x82 :: bs)) >>= sendCommand dev from rfl,
        henc, exceptBind_error, exceptBind_error]

/-- Witness for C2: the in-range case at t = 0x123456 and the failing case
at t = 2^24, run against the all-zero device. -/
theorem setTx_setRx_timeout_witness :
    (encodeOp (Op.SetTx 1193046) = .ok (0x83 :: beBytes 3 (1193046 : Int).toNat) ∧
     encodeOp (Op.SetRx 1193046) = .ok (0x82 :: beBytes 3 (1193046 : Int).toNat) ∧
     (beBytes 3 (1193046 : Int).toNat).length = 3 ∧
     (decodeBE (beBytes 3 (1193046 : Int).toNat) : Int) = 1193046) ∧
    (runOp devZero (Op.SetTx 16777216) = .error .overflowError ∧
     runOp devZero (Op.SetRx 16777216) = .error .overflowError) :=
  ⟨(setTx_setRx_timeout_spec 1193046 devZero).1 (by norm_num) (by norm_num),
   (setTx_setRx_timeout_spec 16777216 devZero).2 (by norm_num)⟩

/-- C4: ReadRegister(0x0740, 4) encodes to the exact 8-byte frame
1D 07 40 00 00 00 00 00; the decode map takes status from response index 3
and payload from index 4; for every in-range address and every length the
frame is 1 + 2 + (length + 1) bytes and the returned payload is exactly
`length` bytes. -/
theorem readRegister_spec :
    ∀ (read_address : Int) (read_length : Nat) (dev : Device),
      encodeOp (Op.ReadRegister 0x0740 4) =
        .ok [0x1D, 0x07, 0x40, 0x00, 0x00, 0x00, 0x00, 0x00] ∧
      (∀ r : List Nat,
        statusOf (Op.ReadRegister read_address read_length) r = r[3]? ∧
        dataOf (Op.ReadRegister read_address read_length) r = some (r.drop 4)) ∧
      (0 ≤ read_address → read_address < 2 ^ 16 →
        encodeOp (Op.ReadRegister read_address read_length) =
          .ok (0x1D :: (beBytes 2 read_address.toNat ++
            List.replicate (read_length + 1) 0)) ∧
        (0x1D :: (beBytes 2 read_address.toNat ++
          List.replicate (read_length + 1) 0)).length = 1 + 2 + (read_length + 1)) ∧
      (∀ frame resp : List Nat,
        encodeOp (Op.ReadRegister read_address read_length) = .ok frame →
        sendCommand dev frame = .ok resp →
        (resp.drop 4).length = read_length) := by
  intro a l dev
  have e2 : ((2 ^ (8 * 2) : Nat) : Int) = 2 ^ 16 := by norm_num
  refine ⟨rfl, fun r => ⟨rfl, rfl⟩, ?_, ?_⟩
  · intro h0 h16
    have henc : toBytes a 2 = .ok (beBytes 2 a.toNat) := by
      unfold toBytes
      rw [if_pos ⟨h0, by rw [e2]; exact h16⟩]
    constructor
    · rw [show encodeOp (Op.ReadRegister a l) =
          toBytes a 2 >>= fun bs =>
            Except.ok (0x1D :: (bs ++ List.replicate (l + 1) 0)) from rfl,
        henc, exceptBind_ok]
    · simp [beBytes_length]
      omega
  · intro frame resp henc hsend
    have hfr : frame.length = 4 + l := by
      rw [show encodeOp (Op.ReadRegister a l) =
          toBytes a 2 >>= fun bs =>
            Except.ok (0x1D :: (bs ++ List.replicate (l + 1) 0)) from rfl] at henc
      rcases htb : toBytes a 2 with e | bs
      · rw [htb, exceptBind_error] at henc
        exact Except.noConfusion henc
      · rw [htb, exceptBind_ok] at henc
        have hbs : bs.length = 2 := by
          revert htb
          unfold toBytes
          split
          · intro htb
            injection htb with hb
            rw [← hb]
            exact beBytes_length 2 _
          · intro htb
            exact Except.noConfusion htb
        injection henc with hf
        rw [← hf]
        simp [hbs]
        omega
    have hresp : resp.length = frame.length := by
      revert hsend
      unfold sendCommand
      split
      · intro hs
        injection hs with hs'
        rw [← hs']
        simp
      · intro hs
        exact Except.noConfusion hs
    simp [hresp, hfr]

/-- Witness for C4 at address 0x0740, length 4, against the all-zero
device. -/
theorem readRegister_witness :
    encodeOp (Op.ReadRegister 0x0740 4) =
      .ok [0x1D, 0x07, 0x40, 0x00, 0x00, 0x00, 0x00, 0x00] ∧
    (statusOf (Op.ReadRegister 0x0740 4) [9, 8, 7, 6, 5, 4, 3, 2] =
      [9, 8, 7, 6, 5, 4, 3, 2][3]? ∧
     dataOf (Op.ReadRegister 0x0740 4) [9, 8, 7, 6, 5, 4, 3, 2] =
      some ([9, 8, 7, 6, 5, 4, 3, 2].drop 4)) ∧
    (encodeOp (Op.ReadRegister 0x0740 4) =
      .ok (0x1D :: (beBytes 2 (0x0740 : Int).toNat ++ List.replicate (4 + 1) 0)) ∧
     (0x1D :: (beBytes 2 (0x0740 : Int).toNat ++
       List.replicate (4 + 1) 0)).length = 1 + 2 + (4 + 1)) ∧
    (([0, 0, 0, 0, 0, 0, 0, 0] : List Nat).drop 4).length = 4 :=
  ⟨(readRegister_spec 0x0740 4 devZero).1,
   (readRegister_spec 0x0740 4 devZero).2.1 [9, 8, 7, 6, 5, 4, 3, 2],
   (readRegister_spec 0x0740 4 devZero).2.2.1 (by norm_num) (by norm_num),
   (readRegister_spec 0x0740 4 devZero).2.2.2
     [0x1D, 0x07, 0x40, 0x00, 0x00, 0x00, 0x00, 0x00]
     [0, 0, 0, 0, 0, 0, 0, 0] rfl rfl⟩

/-- C5: full-duplex symmetry — whenever a public operation's encoded frame
is exchanged successfully, the response read back from the scratch buffer
has exactly the frame's length. -/
theorem fullDuplex_length :
    ∀ (op : Op) (dev : Device) (frame resp : List Nat),
      encodeOp op = .ok frame → sendCommand dev frame = .ok resp →
      resp.length = frame.length := by
  intro op dev frame resp _ hsend
  revert hsend
  unfold sendCommand
  split
  · intro hs
    injection hs with hs'
    rw [← hs']
    simp
  · intro hs
    exact Except.noConfusion hs

/-- Witness for C5: GetStatus's 2-byte frame against the all-zero device
echoes a 2-byte response. -/
theorem fullDuplex_length_witness :
    ([0, 0] : List Nat).length = ([0xC0, 0x00] : List Nat).length :=
  fullDuplex_length Op.GetStatus devZero [0xC0, 0x00] [0, 0] rfl rfl

/-- C10: every public operation stages its frame in the fixed 100-byte
ctypes scratch buffer: a frame longer than 100 bytes fails with the ctypes
`ValueError`, independently of the device, before any SPI exchange; a frame
that fits proceeds to the exchange normally. -/
theorem scratchBuffer_bound :
    ∀ (op : Op) (dev : Device) (frame : List Nat),
      encodeOp op = .ok frame →
      (frame.length ≤ 100 →
        runOp dev op = .ok ((List.range frame.length).map (dev frame))) ∧
      (100 < frame.length → runOp dev op = .error .valueError) := by
  intro op dev frame henc
  have hr : runOp dev op = sendCommand dev frame := by
    rw [show runOp dev op = encodeOp op >>= sendCommand dev from rfl, henc,
      exceptBind_ok]
  constructor
  · intro hle
    rw [hr]
    unfold sendCommand
    rw [if_pos hle]
  · intro hgt
    rw [hr]
    unfold sendCommand
    rw [if_neg (by omega)]

/-- Witness for C10: GetStatus's 2-byte frame fits and is exchanged; a
WriteBuffer call with a 120-byte payload builds a 122-byte frame and fails
with `ValueError` before the exchange. -/
theorem scratchBuffer_bound_witness :
    runOp devZero Op.GetStatus =
      .ok ((List.range ([0xC0, 0x00] : List Nat).length).map (devZero [0xC0, 0x00])) ∧
    runOp devZero (Op.WriteBuffer 0 (List.replicate 120 0)) = .error .valueError :=
  ⟨(scratchBuffer_bound Op.GetStatus devZero [0xC0, 0x00] rfl).1 (by norm_num),
   (scratchBuffer_bound (Op.WriteBuffer 0 (List.replicate 120 0)) devZero
      (0x0E :: pyAnd 0 0xFF :: List.replicate 120 0) rfl).2 (by simp)⟩

theorem sendCommand_ok_length (dev : Device) (cmd resp : List Nat)
    (h : sendCommand dev cmd = .ok resp) : resp.length = cmd.length := by
  revert h
  unfold sendCommand
  split
  · intro hs
    injection hs with hs'
    rw [← hs']
    simp
  · intro hs
    exact Except.noConfusion hs

/-- Counterexample to C7 as stated: `SetDioIrqParams` does not mask its mask
parameters — a 17-bit IrqMask makes `IrqMask.to_bytes(2, 'big')` raise
`OverflowError`. -/
theorem setDioIrqParams_raises_on_wide_mask :
    encodeOp (Op.SetDioIrqParams 65536 0 0 0) = .error .overflowError := by
  rfl

/-- C7 (amended): SetStandby, SetRegulatorMode, SetPacketType and Calibrate
mask their parameter to its bit-width with an all-ones mask (mod 2, mod 2,
mod 2, mod 256) before inserting it into the frame and never raise, for
every integer argument; SetDioIrqParams, however, encodes each of its four
mask parameters as a fixed 2-byte big-endian field, succeeding exactly when
all four masks lie in [0, 2^16) and raising `OverflowError` as soon as any
one of the four is negative or at least 2^16. -/
theorem fixedParam_masking :
    ∀ (c r p cal i d1 d2 d3 : Int),
      encodeOp (Op.SetStandby c) = .ok [0x80, pyAnd c 0x01] ∧
      (pyAnd c 0x01 : Int) = c % 2 ∧
      encodeOp (Op.SetRegulatorMode r) = .ok [0x96, pyAnd r 0x01] ∧
      (pyAnd r 0x01 : Int) = r % 2 ∧
      encodeOp (Op.SetPacketType p) = .ok [0x8A, pyAnd p 0x01] ∧
      (pyAnd p 0x01 : Int) = p % 2 ∧
      encodeOp (Op.Calibrate cal) = .ok [0x89, pyAnd cal 0xFF] ∧
      (pyAnd cal 0xFF : Int) = cal % 256 ∧
      (0 ≤ i → i < 2 ^ 16 → 0 ≤ d1 → d1 < 2 ^ 16 → 0 ≤ d2 → d2 < 2 ^ 16 →
        0 ≤ d3 → d3 < 2 ^ 16 →
        encodeOp (Op.SetDioIrqParams i d1 d2 d3) =
          .ok (0x08 :: (beBytes 2 i.toNat ++ beBytes 2 d1.toNat ++
            beBytes 2 d2.toNat ++ beBytes 2 d3.toNat))) ∧
      ((¬(0 ≤ i ∧ i < 2 ^ 16) ∨ ¬(0 ≤ d1 ∧ d1 < 2 ^ 16) ∨
        ¬(0 ≤ d2 ∧ d2 < 2 ^ 16) ∨ ¬(0 ≤ d3 ∧ d3 < 2 ^ 16)) →
        encodeOp (Op.SetDioIrqParams i d1 d2 d3) = .error .overflowError) := by
  intro c r p cal i d1 d2 d3
  have e2 : ((2 ^ (8 * 2) : Nat) : Int) = 2 ^ 16 := by norm_num
  have hok : ∀ x : Int, 0 ≤ x → x < 2 ^ 16 → toBytes x 2 = .ok (beBytes 2 x.toNat) := by
    intro x h0 h16
    unfold toBytes
    rw [if_pos ⟨h0, by rw [e2]; exact h16⟩]
  refine ⟨rfl, pyAnd_1 c, rfl, pyAnd_1 r, rfl, pyAnd_1 p, rfl, pyAnd_255 cal, ?_, ?_⟩
  · intro hi0 hi hd10 hd1 hd20 hd2 hd30 hd3
    rw [show encodeOp (Op.SetDioIrqParams i d1 d2 d3) =
        toBytes i 2 >>= fun b1 => toBytes d1 2 >>= fun b2 =>
          toBytes d2 2 >>= fun b3 => toBytes d3 2 >>= fun b4 =>
            Except.ok (0x08 :: (b1 ++ b2 ++ b3 ++ b4)) from rfl,
      hok i hi0 hi, exceptBind_ok, hok d1 hd10 hd1, exceptBind_ok,
      hok d2 hd20 hd2, exceptBind_ok, hok d3 hd30 hd3, exceptBind_ok]
  · intro hout
    have hcasesx : ∀ x : Int, toBytes x 2 = .ok (beBytes 2 x.toNat) ∨
        toBytes x 2 = .error .overflowError := by
      intro x
      unfold toBytes
      split
      · exact Or.inl rfl
      · exact Or.inr rfl
    have hokr : ∀ (x : Int) (bs : List Nat),
        toBytes x 2 = .ok bs → 0 ≤ x ∧ x < 2 ^ 16 := by
      intro x bs h
      revert h
      unfold toBytes
      split
      · rename_i hc
        intro _
        rw [e2] at hc
        exact hc
      · intro h
        exact Except.noConfusion h
    rw [show encodeOp (Op.SetDioIrqParams i d1 d2 d3) =
        toBytes i 2 >>= fun b1 => toBytes d1 2 >>= fun b2 =>
          toBytes d2 2 >>= fun b3 => toBytes d3 2 >>= fun b4 =>
            Except.ok (0x08 :: (b1 ++ b2 ++ b3 ++ b4)) from rfl]
    rcases hcasesx i with hi' | hi'
    · rw [hi', exceptBind_ok]
      rcases hcasesx d1 with hd1' | hd1'
      · rw [hd1', exceptBind_ok]
        rcases hcasesx d2 with hd2' | hd2'
        · rw [hd2', exceptBind_ok]
          rcases hcasesx d3 with hd3' | hd3'
          · exfalso
            rcases hout with h | h | h | h
            · exact h (hokr i _ hi')
            · exact h (hokr d1 _ hd1')
            · exact h (hokr d2 _ hd2')
            · exact h (hokr d3 _ hd3')
          · rw [hd3', exceptBind_error]
        · rw [hd2', exceptBind_error]
      · rw [hd1', exceptBind_error]
    · rw [hi', exceptBind_error]

/-- Witness for C7: the masked single-byte commands at concrete negative
and wide arguments; SetDioIrqParams succeeding at small masks and failing
at IrqMask = 2^16, at DIO1Mask = 2^16 with IrqMask in range, and at a
negative IrqMask. -/
theorem fixedParam_masking_witness :
    (encodeOp (Op.SetStandby (-3)) = .ok [0x80, pyAnd (-3) 0x01] ∧
     (pyAnd (-3) 0x01 : Int) = (-3) % 2 ∧
     encodeOp (Op.SetRegulatorMode 2) = .ok [0x96, pyAnd 2 0x01] ∧
     (pyAnd 2 0x01 : Int) = 2 % 2 ∧
     encodeOp (Op.SetPacketType 5) = .ok [0x8A, pyAnd 5 0x01] ∧
     (pyAnd 5 0x01 : Int) = 5 % 2 ∧
     encodeOp (Op.Calibrate 300) = .ok [0x89, pyAnd 300 0xFF] ∧
     (pyAnd 300 0xFF : Int) = 300 % 256 ∧
     encodeOp (Op.SetDioIrqParams 1 2 3 4) =
       .ok (0x08 :: (beBytes 2 (1 : Int).toNat ++ beBytes 2 (2 : Int).toNat ++
         beBytes 2 (3 : Int).toNat ++ beBytes 2 (4 : Int).toNat))) ∧
    encodeOp (Op.SetDioIrqParams 65536 1 1 1) = .error .overflowError ∧
    encodeOp (Op.SetDioIrqParams 0 65536 0 0) = .error .overflowError ∧
    encodeOp (Op.SetDioIrqParams (-1) 0 0 0) = .error .overflowError := by
  have h1 := fixedParam_masking (-3) 2 5 300 1 2 3 4
  have h2 := fixedParam_masking (-3) 2 5 300 65536 1 1 1
  have h3 := fixedParam_masking (-3) 2 5 300 0 65536 0 0
  have h4 := fixedParam_masking (-3) 2 5 300 (-1) 0 0 0
  exact ⟨⟨h1.1, h1.2.1, h1.2.2.1, h1.2.2.2.1, h1.2.2.2.2.1, h1.2.2.2.2.2.1,
    h1.2.2.2.2.2.2.1, h1.2.2.2.2.2.2.2.1,
    h1.2.2.2.2.2.2.2.2.1 (by norm_num) (by norm_num) (by norm_num) (by norm_num)
      (by norm_num) (by norm_num) (by norm_num) (by norm_num)⟩,
    h2.2.2.2.2.2.2.2.2.2 (Or.inl (by norm_num)),
    h3.2.2.2.2.2.2.2.2.2 (Or.inr (Or.inl (by norm_num))),
    h4.2.2.2.2.2.2.2.2.2 (Or.inl (by norm_num))⟩

/-- C9: every decoded response takes its status byte from index 1, except
ReadRegister (index 3) and ReadBuffer (index 2); ReadBuffer's payload starts
at response index 3 and is exactly `read_length` bytes long. -/
theorem statusOffset_spec :
    (∀ (op : Op) (r : List Nat), decodesStatus op = true →
      statusOf op r = r[(match op with
        | Op.ReadRegister _ _ => 3
        | Op.ReadBuffer _ _ => 2
        | _ => 1)]?) ∧
    (∀ (offset : Int) (read_length : Nat) (dev : Device) (frame resp : List Nat),
      encodeOp (Op.ReadBuffer offset read_length) = .ok frame →
      sendCommand dev frame = .ok resp →
      dataOf (Op.ReadBuffer offset read_length) resp = some (resp.drop 3) ∧
      (resp.drop 3).length = read_length) := by
  constructor
  · intro op r h
    cases op <;> first | rfl | simp [decodesStatus] at h
  · intro off l dev frame resp henc hsend
    have h2 : (Except.ok (0x1E :: pyAnd off 0xFF :: List.replicate (l + 1) 0) :
        Except PyError (List Nat)) = Except.ok frame := henc
    injection h2 with h2'
    have hresp : resp.length = frame.length := sendCommand_ok_length dev frame resp hsend
    refine ⟨rfl, ?_⟩
    rw [List.length_drop, hresp, ← h2']
    simp

/-- Witness for C9: the GetStatus branch of the status-offset map, and a
concrete ReadBuffer(5, 2) run against the all-zero device. -/
theorem statusOffset_witness :
    statusOf Op.GetStatus [0xA5, 0x24] = [0xA5, 0x24][1]? ∧
    (dataOf (Op.ReadBuffer 5 2) [0, 0, 0, 0, 0] =
      some (([0, 0, 0, 0, 0] : List Nat).drop 3) ∧
     (([0, 0, 0, 0, 0] : List Nat).drop 3).length = 2) :=
  ⟨statusOffset_spec.1 Op.GetStatus [0xA5, 0x24] rfl,
   statusOffset_spec.2 5 2 devZero (0x1E :: pyAnd 5 0xFF :: List.replicate 3 0)
     [0, 0, 0, 0, 0] rfl rfl⟩

end Sx126x
